import Mathlib

/-!
Verification development for the ALPACA interface-block storage model
(src/interface_block.cpp) and the WENO9 spatial reconstruction kernel
(src/stencils/spatial_reconstruction_stencils/weno9.cpp).

Real ("double") arithmetic is embedded as exact rational arithmetic over ℚ.
Declarations keep the source names where possible.  Parts of the repository
that live in headers not present under src/ (interface_block.h,
utilities/buffer_operations.h, weno9.h with the scheme constants) are
modelled from the specification; each such definition carries a doc comment
starting with "Modelled from the spec:".
-/

namespace Alpaca

/-! ### Field buffers (data model of spec section 3) -/

/-- Modelled from the spec: a cell index of the fixed-extent 3D grid.  The
extents `CC::TCX() × CC::TCY() × CC::TCZ()` come from the missing header
`interface_block.h`; since every claim is stated cell-for-cell, the index
space is abstracted to all of ℕ³. -/
abbrev Cell : Type := ℕ × ℕ × ℕ

/-- Modelled from the spec: a FieldBuffer is a 3D array of real values,
one scalar per cell (`double [CC::TCX()][CC::TCY()][CC::TCZ()]`). -/
abbrev FieldBuffer : Type := Cell → ℚ

/-- Modelled from the spec: `InterfaceDescription ∈ {Levelset, VolumeFraction}`
(missing header enumeration, used throughout interface_block.cpp). -/
inductive InterfaceDescription : Type
  | Levelset
  | VolumeFraction
  deriving DecidableEq

/-- Modelled from the spec: `InterfaceState ∈ {Velocity, PressurePositive,
PressureNegative}` (missing header enumeration). -/
inductive InterfaceState : Type
  | Velocity
  | PressurePositive
  | PressureNegative
  deriving DecidableEq

/-- Modelled from the spec: interface parameter kinds; the only one named by
the source is the surface-tension coefficient (missing header enumeration). -/
inductive InterfaceParameter : Type
  | SurfaceTensionCoefficient
  deriving DecidableEq

/-- Modelled from the spec: the four description buffer roles (missing header
enumeration `InterfaceDescriptionBufferType`). -/
inductive InterfaceDescriptionBufferType : Type
  | Base
  | RightHandSide
  | Reinitialized
  | Initial
  deriving DecidableEq

/-- Modelled from the spec: field-type selector of `GetFieldBuffer`
(missing header enumeration `InterfaceFieldType`). -/
inductive InterfaceFieldType : Type
  | Description
  | Parameters
  | States
  deriving DecidableEq

/-- Modelled from the spec: the flattened buffer identifiers accepted by
`InterfaceBlock::GetBuffer`.  The enumerators are exactly the case labels of
the switch in interface_block.cpp lines 467-513; the parameter enumerator is
declared unconditionally because the checked-build case label for it
compiles in every configuration. -/
inductive InterfaceBlockBufferType : Type
  | LevelsetBase
  | VolumeFractionBase
  | LevelsetRightHandSide
  | VolumeFractionRightHandSide
  | LevelsetReinitialized
  | VolumeFractionReinitialized
  | InterfaceStateVelocity
  | InterfaceStatePressurePositive
  | InterfaceStatePressureNegative
  | InterfaceParameterSurfaceTensionCoefficient
  deriving DecidableEq

/-- Modelled from the spec: the struct `InterfaceDescriptions`, a pair of
field buffers indexed by `InterfaceDescription` via `operator[]`. -/
abbrev InterfaceDescriptions : Type := InterfaceDescription → FieldBuffer

/-- Modelled from the spec: the struct `InterfaceStates`, field buffers
indexed by `InterfaceState`. -/
abbrev InterfaceStates : Type := InterfaceState → FieldBuffer

/-- Modelled from the spec: the struct `InterfaceParameters`, field buffers
indexed by `InterfaceParameter`. -/
abbrev InterfaceParameters : Type := InterfaceParameter → FieldBuffer

/-- Modelled from the spec: the members of `InterfaceBlock` declared in the
missing header — four description-role buffer sets, the state set and the
parameter set (spec section 3). -/
structure InterfaceBlock : Type where
  base_ : InterfaceDescriptions
  right_hand_side_ : InterfaceDescriptions
  reinitialized_ : InterfaceDescriptions
  initial_ : InterfaceDescriptions
  states_ : InterfaceStates
  parameters_ : InterfaceParameters

namespace BufferOperations

/-- Modelled from the spec: `BufferOperations::SetSingleBuffer(buffer, v)`
(missing utilities/buffer_operations.h) writes the value `v` into every cell
of the target buffer; the result is the written buffer. -/
def SetSingleBuffer (v : ℚ) : FieldBuffer := fun _ => v

/-- Modelled from the spec: `BufferOperations::CopySingleBuffer(src, dst)`
copies the source field cell-for-cell into the target buffer. -/
def CopySingleBuffer (src : FieldBuffer) : FieldBuffer := src

/-- Modelled from the spec: `BufferOperations::SetFieldBuffer(set, v)` on a
description set writes `v` into every cell of every buffer of the set. -/
def SetDescriptionFieldBuffer (v : ℚ) : InterfaceDescriptions :=
  fun _ => SetSingleBuffer v

/-- Modelled from the spec: `BufferOperations::SetFieldBuffer(set, v)` on the
interface-state set. -/
def SetStateFieldBuffer (v : ℚ) : InterfaceStates :=
  fun _ => SetSingleBuffer v

/-- Modelled from the spec: `BufferOperations::SetFieldBuffer(set, v)` on the
interface-parameter set. -/
def SetParameterFieldBuffer (v : ℚ) : InterfaceParameters :=
  fun _ => SetSingleBuffer v

end BufferOperations

/-- Constructor `InterfaceBlock::InterfaceBlock(double const (&)[..][..][..])`
(interface_block.cpp lines 76-94).  `parameterModelActive` models the
compile-time flag `CC::InterfaceParameterModelActive()`; `junk` models the
indeterminate pre-construction contents of members the constructor does not
write (the parameter set when the model is inactive). -/
def InterfaceBlockFromField (parameterModelActive : Bool) (junk : InterfaceBlock)
    (levelset_initial : FieldBuffer) : InterfaceBlock where
  base_ := BufferOperations.SetDescriptionFieldBuffer 0
  right_hand_side_ := fun d =>
    match d with
    | .Levelset => BufferOperations.CopySingleBuffer levelset_initial
    | .VolumeFraction => BufferOperations.SetSingleBuffer 0
  reinitialized_ := fun d =>
    match d with
    | .Levelset => BufferOperations.CopySingleBuffer levelset_initial
    | .VolumeFraction => BufferOperations.SetSingleBuffer 0
  initial_ := BufferOperations.SetDescriptionFieldBuffer 0
  states_ := BufferOperations.SetStateFieldBuffer 0
  parameters_ :=
    if parameterModelActive then BufferOperations.SetParameterFieldBuffer 0
    else junk.parameters_

/-- Constructor `InterfaceBlock::InterfaceBlock(double const)`
(interface_block.cpp lines 100-119): uniform scalar value variant.  The base
volume fraction is `levelset_initial > 0 ? 1.0 : 0.0` (line 104). -/
def InterfaceBlockFromValue (parameterModelActive : Bool) (junk : InterfaceBlock)
    (levelset_initial : ℚ) : InterfaceBlock where
  base_ := fun d =>
    match d with
    | .Levelset => BufferOperations.SetSingleBuffer 0
    | .VolumeFraction =>
        BufferOperations.SetSingleBuffer (if 0 < levelset_initial then 1 else 0)
  right_hand_side_ := fun d =>
    match d with
    | .Levelset => BufferOperations.SetSingleBuffer levelset_initial
    | .VolumeFraction => BufferOperations.SetSingleBuffer 0
  reinitialized_ := fun d =>
    match d with
    | .Levelset => BufferOperations.SetSingleBuffer levelset_initial
    | .VolumeFraction => BufferOperations.SetSingleBuffer 0
  initial_ := BufferOperations.SetDescriptionFieldBuffer 0
  states_ := BufferOperations.SetStateFieldBuffer 0
  parameters_ :=
    if parameterModelActive then BufferOperations.SetParameterFieldBuffer 0
    else junk.parameters_

/-! ### Accessors (interface_block.cpp lines 128-513) -/

/-- `InterfaceBlock::GetBaseBuffer(InterfaceDescription)` (lines 164-166). -/
def GetBaseBuffer (b : InterfaceBlock) (d : InterfaceDescription) : FieldBuffer :=
  b.base_ d

/-- `InterfaceBlock::GetRightHandSideBuffer(InterfaceDescription)` (lines 180-182). -/
def GetRightHandSideBuffer (b : InterfaceBlock) (d : InterfaceDescription) : FieldBuffer :=
  b.right_hand_side_ d

/-- `InterfaceBlock::GetReinitializedBuffer(InterfaceDescription)` (lines 196-198). -/
def GetReinitializedBuffer (b : InterfaceBlock) (d : InterfaceDescription) : FieldBuffer :=
  b.reinitialized_ d

/-- `InterfaceBlock::GetInitialBuffer(InterfaceDescription)` (lines 212-214). -/
def GetInitialBuffer (b : InterfaceBlock) (d : InterfaceDescription) : FieldBuffer :=
  b.initial_ d

/-- `InterfaceBlock::GetInterfaceStateBuffer(InterfaceState)` (lines 406-408). -/
def GetInterfaceStateBuffer (b : InterfaceBlock) (s : InterfaceState) : FieldBuffer :=
  b.states_ s

/-- `InterfaceBlock::GetInterfaceParameterBuffer(InterfaceParameter)` (lines 437-439). -/
def GetInterfaceParameterBuffer (b : InterfaceBlock) (p : InterfaceParameter) : FieldBuffer :=
  b.parameters_ p

/-- `InterfaceBlock::GetInterfaceDescriptionBuffer(InterfaceDescriptionBufferType)`
(lines 364-379): selects the description set of the given role. -/
def GetInterfaceDescriptionBuffer (b : InterfaceBlock)
    (buffer_type : InterfaceDescriptionBufferType) : InterfaceDescriptions :=
  match buffer_type with
  | .RightHandSide => b.right_hand_side_
  | .Reinitialized => b.reinitialized_
  | .Base => b.base_
  | .Initial => b.initial_

/-- Modelled from the spec: the enumeration ordinal of an interface
description (missing header declares Levelset before VolumeFraction,
matching the spec's listing order). -/
def descriptionToIndex (d : InterfaceDescription) : ℕ :=
  match d with
  | .Levelset => 0
  | .VolumeFraction => 1

/-- Modelled from the spec: the description selected by a raw field index, as
used by `GetFieldBuffer`'s `[field_index]` subscript. -/
def descriptionFromIndex (i : ℕ) : InterfaceDescription :=
  if i = 0 then .Levelset else .VolumeFraction

/-- Modelled from the spec: the enumeration ordinal of an interface state. -/
def stateToIndex (s : InterfaceState) : ℕ :=
  match s with
  | .Velocity => 0
  | .PressurePositive => 1
  | .PressureNegative => 2

/-- Modelled from the spec: the state selected by a raw field index. -/
def stateFromIndex (i : ℕ) : InterfaceState :=
  if i = 0 then .Velocity else if i = 1 then .PressurePositive else .PressureNegative

/-- Modelled from the spec: the enumeration ordinal of an interface parameter. -/
def parameterToIndex (p : InterfaceParameter) : ℕ :=
  match p with
  | .SurfaceTensionCoefficient => 0

/-- Modelled from the spec: the parameter selected by a raw field index. -/
def parameterFromIndex (_ : ℕ) : InterfaceParameter :=
  .SurfaceTensionCoefficient

/-- `InterfaceBlock::GetFieldBuffer(InterfaceFieldType, unsigned int,
InterfaceDescriptionBufferType)` (interface_block.cpp lines 128-140). -/
def GetFieldBuffer (b : InterfaceBlock) (field_type : InterfaceFieldType)
    (field_index : ℕ) (buffer_type : InterfaceDescriptionBufferType) : FieldBuffer :=
  match field_type with
  | .Description => GetInterfaceDescriptionBuffer b buffer_type (descriptionFromIndex field_index)
  | .Parameters => b.parameters_ (parameterFromIndex field_index)
  | .States => b.states_ (stateFromIndex field_index)

/-- `InterfaceBlock::GetBuffer(InterfaceBlockBufferType)` as compiled in the
PERFORMANCE build (interface_block.cpp lines 467-513 with `#ifdef PERFORMANCE`):
the `default` branch returns the surface-tension-coefficient parameter buffer. -/
def GetBufferPerformance (b : InterfaceBlock)
    (buffer_type : InterfaceBlockBufferType) : FieldBuffer :=
  match buffer_type with
  | .LevelsetBase => b.base_ .Levelset
  | .VolumeFractionBase => b.base_ .VolumeFraction
  | .LevelsetRightHandSide => b.right_hand_side_ .Levelset
  | .VolumeFractionRightHandSide => b.right_hand_side_ .VolumeFraction
  | .LevelsetReinitialized => b.reinitialized_ .Levelset
  | .VolumeFractionReinitialized => b.reinitialized_ .VolumeFraction
  | .InterfaceStateVelocity => b.states_ .Velocity
  | .InterfaceStatePressurePositive => b.states_ .PressurePositive
  | .InterfaceStatePressureNegative => b.states_ .PressureNegative
  | _ => b.parameters_ .SurfaceTensionCoefficient

/-- `InterfaceBlock::GetBuffer(InterfaceBlockBufferType)` as compiled in the
checked (non-PERFORMANCE) build (interface_block.cpp lines 467-513): every
declared enumerator has an explicit case that returns a buffer — including
`InterfaceParameterSurfaceTensionCoefficient` (line 504), which returns the
parameter storage unconditionally.  The `default : throw std::invalid_argument`
branch (line 507) is reachable for no declared enumerator, as its own message
"(impossible error" records, so no error constructor appears below. -/
def GetBufferChecked (b : InterfaceBlock)
    (buffer_type : InterfaceBlockBufferType) : Except String FieldBuffer :=
  match buffer_type with
  | .LevelsetBase => .ok (b.base_ .Levelset)
  | .VolumeFractionBase => .ok (b.base_ .VolumeFraction)
  | .LevelsetRightHandSide => .ok (b.right_hand_side_ .Levelset)
  | .VolumeFractionRightHandSide => .ok (b.right_hand_side_ .VolumeFraction)
  | .LevelsetReinitialized => .ok (b.reinitialized_ .Levelset)
  | .VolumeFractionReinitialized => .ok (b.reinitialized_ .VolumeFraction)
  | .InterfaceStateVelocity => .ok (b.states_ .Velocity)
  | .InterfaceStatePressurePositive => .ok (b.states_ .PressurePositive)
  | .InterfaceStatePressureNegative => .ok (b.states_ .PressureNegative)
  | .InterfaceParameterSurfaceTensionCoefficient =>
      .ok (b.parameters_ .SurfaceTensionCoefficient)

/-- A concrete block with recognisably nonzero contents, used as explicit
input for counterexamples and witnesses. -/
def sampleBlock : InterfaceBlock where
  base_ := fun _ _ => 37
  right_hand_side_ := fun _ _ => 37
  reinitialized_ := fun _ _ => 37
  initial_ := fun _ _ => 37
  states_ := fun _ _ => 37
  parameters_ := fun _ _ => 37

/-- A concrete nonuniform field used as explicit constructor input in
witnesses. -/
def sampleField : FieldBuffer := fun c => (c.1 : ℚ) + 5


/-! ### WENO9 reconstruction kernel (weno9.cpp) -/

/-- Modelled from the spec: the regularisation constant `epsilon_weno9_` of the
missing header weno9.h; a small fixed positive constant added to every
smoothness indicator (spec section 4.2 step 4). -/
def epsilon_weno9 : ℚ := 1 / 10000000000

/-- Modelled from the spec: optimal linear weight `coef_weights_1_` of
sub-stencil 1 of the standard ninth-order WENO scheme (missing header). -/
def coef_weights_1 : ℚ := 1 / 126

/-- Modelled from the spec: optimal linear weight `coef_weights_2_` of
sub-stencil 2 of the standard ninth-order WENO scheme (missing header). -/
def coef_weights_2 : ℚ := 10 / 63

/-- Modelled from the spec: optimal linear weight `coef_weights_3_` of
sub-stencil 3 of the standard ninth-order WENO scheme (missing header). -/
def coef_weights_3 : ℚ := 10 / 21

/-- Modelled from the spec: optimal linear weight `coef_weights_4_` of
sub-stencil 4 of the standard ninth-order WENO scheme (missing header). -/
def coef_weights_4 : ℚ := 20 / 63

/-- Modelled from the spec: optimal linear weight `coef_weights_5_` of
sub-stencil 5 of the standard ninth-order WENO scheme (missing header). -/
def coef_weights_5 : ℚ := 5 / 126

/-- Modelled from the spec: polynomial reconstruction coefficient
`coef_stencils_1_` (sample 1 of sub-stencil 1) of the standard
ninth-order WENO scheme (missing header). -/
def coef_stencils_1 : ℚ := 12 / 60

/-- Modelled from the spec: polynomial reconstruction coefficient
`coef_stencils_2_` (sample 2 of sub-stencil 1) of the standard
ninth-order WENO scheme (missing header). -/
def coef_stencils_2 : ℚ := -(63 / 60)

/-- Modelled from the spec: polynomial reconstruction coefficient
`coef_stencils_3_` (sample 3 of sub-stencil 1) of the standard
ninth-order WENO scheme (missing header). -/
def coef_stencils_3 : ℚ := 137 / 60

/-- Modelled from the spec: polynomial reconstruction coefficient
`coef_stencils_4_` (sample 4 of sub-stencil 1) of the standard
ninth-order WENO scheme (missing header). -/
def coef_stencils_4 : ℚ := -(163 / 60)

/-- Modelled from the spec: polynomial reconstruction coefficient
`coef_stencils_5_` (sample 5 of sub-stencil 1) of the standard
ninth-order WENO scheme (missing header). -/
def coef_stencils_5 : ℚ := 137 / 60

/-- Modelled from the spec: polynomial reconstruction coefficient
`coef_stencils_6_` (sample 1 of sub-stencil 2) of the standard
ninth-order WENO scheme (missing header). -/
def coef_stencils_6 : ℚ := -(3 / 60)

/-- Modelled from the spec: polynomial reconstruction coefficient
`coef_stencils_7_` (sample 2 of sub-stencil 2) of the standard
ninth-order WENO scheme (missing header). -/
def coef_stencils_7 : ℚ := 17 / 60

/-- Modelled from the spec: polynomial reconstruction coefficient
`coef_stencils_8_` (sample 3 of sub-stencil 2) of the standard
ninth-order WENO scheme (missing header). -/
def coef_stencils_8 : ℚ := -(43 / 60)

/-- Modelled from the spec: polynomial reconstruction coefficient
`coef_stencils_9_` (sample 4 of sub-stencil 2) of the standard
ninth-order WENO scheme (missing header). -/
def coef_stencils_9 : ℚ := 77 / 60

/-- Modelled from the spec: polynomial reconstruction coefficient
`coef_stencils_10_` (sample 5 of sub-stencil 2) of the standard
ninth-order WENO scheme (missing header). -/
def coef_stencils_10 : ℚ := 12 / 60

/-- Modelled from the spec: polynomial reconstruction coefficient
`coef_stencils_11_` (sample 1 of sub-stencil 3) of the standard
ninth-order WENO scheme (missing header). -/
def coef_stencils_11 : ℚ := 2 / 60

/-- Modelled from the spec: polynomial reconstruction coefficient
`coef_stencils_12_` (sample 2 of sub-stencil 3) of the standard
ninth-order WENO scheme (missing header). -/
def coef_stencils_12 : ℚ := -(13 / 60)

/-- Modelled from the spec: polynomial reconstruction coefficient
`coef_stencils_13_` (sample 3 of sub-stencil 3) of the standard
ninth-order WENO scheme (missing header). -/
def coef_stencils_13 : ℚ := 47 / 60

/-- Modelled from the spec: polynomial reconstruction coefficient
`coef_stencils_14_` (sample 4 of sub-stencil 3) of the standard
ninth-order WENO scheme (missing header). -/
def coef_stencils_14 : ℚ := 27 / 60

/-- Modelled from the spec: polynomial reconstruction coefficient
`coef_stencils_15_` (sample 5 of sub-stencil 3) of the standard
ninth-order WENO scheme (missing header). -/
def coef_stencils_15 : ℚ := -(3 / 60)

/-- Modelled from the spec: polynomial reconstruction coefficient
`coef_stencils_16_` (sample 1 of sub-stencil 4) of the standard
ninth-order WENO scheme (missing header). -/
def coef_stencils_16 : ℚ := -(3 / 60)

/-- Modelled from the spec: polynomial reconstruction coefficient
`coef_stencils_17_` (sample 2 of sub-stencil 4) of the standard
ninth-order WENO scheme (missing header). -/
def coef_stencils_17 : ℚ := 27 / 60

/-- Modelled from the spec: polynomial reconstruction coefficient
`coef_stencils_18_` (sample 3 of sub-stencil 4) of the standard
ninth-order WENO scheme (missing header). -/
def coef_stencils_18 : ℚ := 47 / 60

/-- Modelled from the spec: polynomial reconstruction coefficient
`coef_stencils_19_` (sample 4 of sub-stencil 4) of the standard
ninth-order WENO scheme (missing header). -/
def coef_stencils_19 : ℚ := -(13 / 60)

/-- Modelled from the spec: polynomial reconstruction coefficient
`coef_stencils_20_` (sample 5 of sub-stencil 4) of the standard
ninth-order WENO scheme (missing header). -/
def coef_stencils_20 : ℚ := 2 / 60

/-- Modelled from the spec: polynomial reconstruction coefficient
`coef_stencils_21_` (sample 1 of sub-stencil 5) of the standard
ninth-order WENO scheme (missing header). -/
def coef_stencils_21 : ℚ := 12 / 60

/-- Modelled from the spec: polynomial reconstruction coefficient
`coef_stencils_22_` (sample 2 of sub-stencil 5) of the standard
ninth-order WENO scheme (missing header). -/
def coef_stencils_22 : ℚ := 77 / 60

/-- Modelled from the spec: polynomial reconstruction coefficient
`coef_stencils_23_` (sample 3 of sub-stencil 5) of the standard
ninth-order WENO scheme (missing header). -/
def coef_stencils_23 : ℚ := -(43 / 60)

/-- Modelled from the spec: polynomial reconstruction coefficient
`coef_stencils_24_` (sample 4 of sub-stencil 5) of the standard
ninth-order WENO scheme (missing header). -/
def coef_stencils_24 : ℚ := 17 / 60

/-- Modelled from the spec: polynomial reconstruction coefficient
`coef_stencils_25_` (sample 5 of sub-stencil 5) of the standard
ninth-order WENO scheme (missing header). -/
def coef_stencils_25 : ℚ := -(3 / 60)

/-- Modelled from the spec: smoothness-indicator coefficient
`coef_smoothness_0_01_` of the standard ninth-order WENO scheme
(missing header). -/
def coef_smoothness_0_01 : ℚ := 22658

/-- Modelled from the spec: smoothness-indicator coefficient
`coef_smoothness_0_02_` of the standard ninth-order WENO scheme
(missing header). -/
def coef_smoothness_0_02 : ℚ := -208501

/-- Modelled from the spec: smoothness-indicator coefficient
`coef_smoothness_0_03_` of the standard ninth-order WENO scheme
(missing header). -/
def coef_smoothness_0_03 : ℚ := 364863

/-- Modelled from the spec: smoothness-indicator coefficient
`coef_smoothness_0_04_` of the standard ninth-order WENO scheme
(missing header). -/
def coef_smoothness_0_04 : ℚ := -288007

/-- Modelled from the spec: smoothness-indicator coefficient
`coef_smoothness_0_05_` of the standard ninth-order WENO scheme
(missing header). -/
def coef_smoothness_0_05 : ℚ := 86329

/-- Modelled from the spec: smoothness-indicator coefficient
`coef_smoothness_0_06_` of the standard ninth-order WENO scheme
(missing header). -/
def coef_smoothness_0_06 : ℚ := 482963

/-- Modelled from the spec: smoothness-indicator coefficient
`coef_smoothness_0_07_` of the standard ninth-order WENO scheme
(missing header). -/
def coef_smoothness_0_07 : ℚ := -1704396

/-- Modelled from the spec: smoothness-indicator coefficient
`coef_smoothness_0_08_` of the standard ninth-order WENO scheme
(missing header). -/
def coef_smoothness_0_08 : ℚ := 1358458

/-- Modelled from the spec: smoothness-indicator coefficient
`coef_smoothness_0_09_` of the standard ninth-order WENO scheme
(missing header). -/
def coef_smoothness_0_09 : ℚ := -411487

/-- Modelled from the spec: smoothness-indicator coefficient
`coef_smoothness_0_10_` of the standard ninth-order WENO scheme
(missing header). -/
def coef_smoothness_0_10 : ℚ := 1521393

/-- Modelled from the spec: smoothness-indicator coefficient
`coef_smoothness_0_11_` of the standard ninth-order WENO scheme
(missing header). -/
def coef_smoothness_0_11 : ℚ := -2462076

/-- Modelled from the spec: smoothness-indicator coefficient
`coef_smoothness_0_12_` of the standard ninth-order WENO scheme
(missing header). -/
def coef_smoothness_0_12 : ℚ := 758823

/-- Modelled from the spec: smoothness-indicator coefficient
`coef_smoothness_0_13_` of the standard ninth-order WENO scheme
(missing header). -/
def coef_smoothness_0_13 : ℚ := 1020563

/-- Modelled from the spec: smoothness-indicator coefficient
`coef_smoothness_0_14_` of the standard ninth-order WENO scheme
(missing header). -/
def coef_smoothness_0_14 : ℚ := -649501

/-- Modelled from the spec: smoothness-indicator coefficient
`coef_smoothness_0_15_` of the standard ninth-order WENO scheme
(missing header). -/
def coef_smoothness_0_15 : ℚ := 107918

/-- Modelled from the spec: smoothness-indicator coefficient
`coef_smoothness_1_01_` of the standard ninth-order WENO scheme
(missing header). -/
def coef_smoothness_1_01 : ℚ := 6908

/-- Modelled from the spec: smoothness-indicator coefficient
`coef_smoothness_1_02_` of the standard ninth-order WENO scheme
(missing header). -/
def coef_smoothness_1_02 : ℚ := -60871

/-- Modelled from the spec: smoothness-indicator coefficient
`coef_smoothness_1_03_` of the standard ninth-order WENO scheme
(missing header). -/
def coef_smoothness_1_03 : ℚ := 99213

/-- Modelled from the spec: smoothness-indicator coefficient
`coef_smoothness_1_04_` of the standard ninth-order WENO scheme
(missing header). -/
def coef_smoothness_1_04 : ℚ := -70237

/-- Modelled from the spec: smoothness-indicator coefficient
`coef_smoothness_1_05_` of the standard ninth-order WENO scheme
(missing header). -/
def coef_smoothness_1_05 : ℚ := 18079

/-- Modelled from the spec: smoothness-indicator coefficient
`coef_smoothness_1_06_` of the standard ninth-order WENO scheme
(missing header). -/
def coef_smoothness_1_06 : ℚ := 138563

/-- Modelled from the spec: smoothness-indicator coefficient
`coef_smoothness_1_07_` of the standard ninth-order WENO scheme
(missing header). -/
def coef_smoothness_1_07 : ℚ := -464976

/-- Modelled from the spec: smoothness-indicator coefficient
`coef_smoothness_1_08_` of the standard ninth-order WENO scheme
(missing header). -/
def coef_smoothness_1_08 : ℚ := 337018

/-- Modelled from the spec: smoothness-indicator coefficient
`coef_smoothness_1_09_` of the standard ninth-order WENO scheme
(missing header). -/
def coef_smoothness_1_09 : ℚ := -88297

/-- Modelled from the spec: smoothness-indicator coefficient
`coef_smoothness_1_10_` of the standard ninth-order WENO scheme
(missing header). -/
def coef_smoothness_1_10 : ℚ := 406293

/-- Modelled from the spec: smoothness-indicator coefficient
`coef_smoothness_1_11_` of the standard ninth-order WENO scheme
(missing header). -/
def coef_smoothness_1_11 : ℚ := -611976

/-- Modelled from the spec: smoothness-indicator coefficient
`coef_smoothness_1_12_` of the standard ninth-order WENO scheme
(missing header). -/
def coef_smoothness_1_12 : ℚ := 165153

/-- Modelled from the spec: smoothness-indicator coefficient
`coef_smoothness_1_13_` of the standard ninth-order WENO scheme
(missing header). -/
def coef_smoothness_1_13 : ℚ := 242723

/-- Modelled from the spec: smoothness-indicator coefficient
`coef_smoothness_1_14_` of the standard ninth-order WENO scheme
(missing header). -/
def coef_smoothness_1_14 : ℚ := -140251

/-- Modelled from the spec: smoothness-indicator coefficient
`coef_smoothness_1_15_` of the standard ninth-order WENO scheme
(missing header). -/
def coef_smoothness_1_15 : ℚ := 22658

/-- Modelled from the spec: smoothness-indicator coefficient
`coef_smoothness_2_01_` of the standard ninth-order WENO scheme
(missing header). -/
def coef_smoothness_2_01 : ℚ := 6908

/-- Modelled from the spec: smoothness-indicator coefficient
`coef_smoothness_2_02_` of the standard ninth-order WENO scheme
(missing header). -/
def coef_smoothness_2_02 : ℚ := -51001

/-- Modelled from the spec: smoothness-indicator coefficient
`coef_smoothness_2_03_` of the standard ninth-order WENO scheme
(missing header). -/
def coef_smoothness_2_03 : ℚ := 67923

/-- Modelled from the spec: smoothness-indicator coefficient
`coef_smoothness_2_04_` of the standard ninth-order WENO scheme
(missing header). -/
def coef_smoothness_2_04 : ℚ := -38947

/-- Modelled from the spec: smoothness-indicator coefficient
`coef_smoothness_2_05_` of the standard ninth-order WENO scheme
(missing header). -/
def coef_smoothness_2_05 : ℚ := 8209

/-- Modelled from the spec: smoothness-indicator coefficient
`coef_smoothness_2_06_` of the standard ninth-order WENO scheme
(missing header). -/
def coef_smoothness_2_06 : ℚ := 104963

/-- Modelled from the spec: smoothness-indicator coefficient
`coef_smoothness_2_07_` of the standard ninth-order WENO scheme
(missing header). -/
def coef_smoothness_2_07 : ℚ := -299076

/-- Modelled from the spec: smoothness-indicator coefficient
`coef_smoothness_2_08_` of the standard ninth-order WENO scheme
(missing header). -/
def coef_smoothness_2_08 : ℚ := 179098

/-- Modelled from the spec: smoothness-indicator coefficient
`coef_smoothness_2_09_` of the standard ninth-order WENO scheme
(missing header). -/
def coef_smoothness_2_09 : ℚ := -38947

/-- Modelled from the spec: smoothness-indicator coefficient
`coef_smoothness_2_10_` of the standard ninth-order WENO scheme
(missing header). -/
def coef_smoothness_2_10 : ℚ := 231153

/-- Modelled from the spec: smoothness-indicator coefficient
`coef_smoothness_2_11_` of the standard ninth-order WENO scheme
(missing header). -/
def coef_smoothness_2_11 : ℚ := -299076

/-- Modelled from the spec: smoothness-indicator coefficient
`coef_smoothness_2_12_` of the standard ninth-order WENO scheme
(missing header). -/
def coef_smoothness_2_12 : ℚ := 67923

/-- Modelled from the spec: smoothness-indicator coefficient
`coef_smoothness_2_13_` of the standard ninth-order WENO scheme
(missing header). -/
def coef_smoothness_2_13 : ℚ := 104963

/-- Modelled from the spec: smoothness-indicator coefficient
`coef_smoothness_2_14_` of the standard ninth-order WENO scheme
(missing header). -/
def coef_smoothness_2_14 : ℚ := -51001

/-- Modelled from the spec: smoothness-indicator coefficient
`coef_smoothness_2_15_` of the standard ninth-order WENO scheme
(missing header). -/
def coef_smoothness_2_15 : ℚ := 6908

/-- Modelled from the spec: smoothness-indicator coefficient
`coef_smoothness_3_01_` of the standard ninth-order WENO scheme
(missing header). -/
def coef_smoothness_3_01 : ℚ := 22658

/-- Modelled from the spec: smoothness-indicator coefficient
`coef_smoothness_3_02_` of the standard ninth-order WENO scheme
(missing header). -/
def coef_smoothness_3_02 : ℚ := -140251

/-- Modelled from the spec: smoothness-indicator coefficient
`coef_smoothness_3_03_` of the standard ninth-order WENO scheme
(missing header). -/
def coef_smoothness_3_03 : ℚ := 165153

/-- Modelled from the spec: smoothness-indicator coefficient
`coef_smoothness_3_04_` of the standard ninth-order WENO scheme
(missing header). -/
def coef_smoothness_3_04 : ℚ := -88297

/-- Modelled from the spec: smoothness-indicator coefficient
`coef_smoothness_3_05_` of the standard ninth-order WENO scheme
(missing header). -/
def coef_smoothness_3_05 : ℚ := 18079

/-- Modelled from the spec: smoothness-indicator coefficient
`coef_smoothness_3_06_` of the standard ninth-order WENO scheme
(missing header). -/
def coef_smoothness_3_06 : ℚ := 242723

/-- Modelled from the spec: smoothness-indicator coefficient
`coef_smoothness_3_07_` of the standard ninth-order WENO scheme
(missing header). -/
def coef_smoothness_3_07 : ℚ := -611976

/-- Modelled from the spec: smoothness-indicator coefficient
`coef_smoothness_3_08_` of the standard ninth-order WENO scheme
(missing header). -/
def coef_smoothness_3_08 : ℚ := 337018

/-- Modelled from the spec: smoothness-indicator coefficient
`coef_smoothness_3_09_` of the standard ninth-order WENO scheme
(missing header). -/
def coef_smoothness_3_09 : ℚ := -70237

/-- Modelled from the spec: smoothness-indicator coefficient
`coef_smoothness_3_10_` of the standard ninth-order WENO scheme
(missing header). -/
def coef_smoothness_3_10 : ℚ := 406293

/-- Modelled from the spec: smoothness-indicator coefficient
`coef_smoothness_3_11_` of the standard ninth-order WENO scheme
(missing header). -/
def coef_smoothness_3_11 : ℚ := -464976

/-- Modelled from the spec: smoothness-indicator coefficient
`coef_smoothness_3_12_` of the standard ninth-order WENO scheme
(missing header). -/
def coef_smoothness_3_12 : ℚ := 99213

/-- Modelled from the spec: smoothness-indicator coefficient
`coef_smoothness_3_13_` of the standard ninth-order WENO scheme
(missing header). -/
def coef_smoothness_3_13 : ℚ := 138563

/-- Modelled from the spec: smoothness-indicator coefficient
`coef_smoothness_3_14_` of the standard ninth-order WENO scheme
(missing header). -/
def coef_smoothness_3_14 : ℚ := -60871

/-- Modelled from the spec: smoothness-indicator coefficient
`coef_smoothness_3_15_` of the standard ninth-order WENO scheme
(missing header). -/
def coef_smoothness_3_15 : ℚ := 6908

/-- Modelled from the spec: smoothness-indicator coefficient
`coef_smoothness_4_01_` of the standard ninth-order WENO scheme
(missing header). -/
def coef_smoothness_4_01 : ℚ := 107918

/-- Modelled from the spec: smoothness-indicator coefficient
`coef_smoothness_4_02_` of the standard ninth-order WENO scheme
(missing header). -/
def coef_smoothness_4_02 : ℚ := -649501

/-- Modelled from the spec: smoothness-indicator coefficient
`coef_smoothness_4_03_` of the standard ninth-order WENO scheme
(missing header). -/
def coef_smoothness_4_03 : ℚ := 758823

/-- Modelled from the spec: smoothness-indicator coefficient
`coef_smoothness_4_04_` of the standard ninth-order WENO scheme
(missing header). -/
def coef_smoothness_4_04 : ℚ := -411487

/-- Modelled from the spec: smoothness-indicator coefficient
`coef_smoothness_4_05_` of the standard ninth-order WENO scheme
(missing header). -/
def coef_smoothness_4_05 : ℚ := 86329

/-- Modelled from the spec: smoothness-indicator coefficient
`coef_smoothness_4_06_` of the standard ninth-order WENO scheme
(missing header). -/
def coef_smoothness_4_06 : ℚ := 1020563

/-- Modelled from the spec: smoothness-indicator coefficient
`coef_smoothness_4_07_` of the standard ninth-order WENO scheme
(missing header). -/
def coef_smoothness_4_07 : ℚ := -2462076

/-- Modelled from the spec: smoothness-indicator coefficient
`coef_smoothness_4_08_` of the standard ninth-order WENO scheme
(missing header). -/
def coef_smoothness_4_08 : ℚ := 1358458

/-- Modelled from the spec: smoothness-indicator coefficient
`coef_smoothness_4_09_` of the standard ninth-order WENO scheme
(missing header). -/
def coef_smoothness_4_09 : ℚ := -288007

/-- Modelled from the spec: smoothness-indicator coefficient
`coef_smoothness_4_10_` of the standard ninth-order WENO scheme
(missing header). -/
def coef_smoothness_4_10 : ℚ := 1521393

/-- Modelled from the spec: smoothness-indicator coefficient
`coef_smoothness_4_11_` of the standard ninth-order WENO scheme
(missing header). -/
def coef_smoothness_4_11 : ℚ := -1704396

/-- Modelled from the spec: smoothness-indicator coefficient
`coef_smoothness_4_12_` of the standard ninth-order WENO scheme
(missing header). -/
def coef_smoothness_4_12 : ℚ := 364863

/-- Modelled from the spec: smoothness-indicator coefficient
`coef_smoothness_4_13_` of the standard ninth-order WENO scheme
(missing header). -/
def coef_smoothness_4_13 : ℚ := 482963

/-- Modelled from the spec: smoothness-indicator coefficient
`coef_smoothness_4_14_` of the standard ninth-order WENO scheme
(missing header). -/
def coef_smoothness_4_14 : ℚ := -208501

/-- Modelled from the spec: smoothness-indicator coefficient
`coef_smoothness_4_15_` of the standard ninth-order WENO scheme
(missing header). -/
def coef_smoothness_4_15 : ℚ := 22658

/-- Smoothness indicator `s1` of WENO9::ApplyImplementation before the
epsilon regularisation (weno9.cpp lines 99-105). -/
def smoothness1 (v1 v2 v3 v4 v5 : ℚ) : ℚ :=
  v1 * (coef_smoothness_0_01 * v1 + coef_smoothness_0_02 * v2 + coef_smoothness_0_03 * v3 + coef_smoothness_0_04 * v4 + coef_smoothness_0_05 * v5) +
  v2 * (coef_smoothness_0_06 * v2 + coef_smoothness_0_07 * v3 + coef_smoothness_0_08 * v4 + coef_smoothness_0_09 * v5) +
  v3 * (coef_smoothness_0_10 * v3 + coef_smoothness_0_11 * v4 + coef_smoothness_0_12 * v5) +
  v4 * (coef_smoothness_0_13 * v4 + coef_smoothness_0_14 * v5) +
  v5 * (coef_smoothness_0_15 * v5)

/-- Smoothness indicator `s2` of WENO9::ApplyImplementation before the
epsilon regularisation (weno9.cpp lines 107-113). -/
def smoothness2 (v2 v3 v4 v5 v6 : ℚ) : ℚ :=
  v2 * (coef_smoothness_1_01 * v2 + coef_smoothness_1_02 * v3 + coef_smoothness_1_03 * v4 + coef_smoothness_1_04 * v5 + coef_smoothness_1_05 * v6) +
  v3 * (coef_smoothness_1_06 * v3 + coef_smoothness_1_07 * v4 + coef_smoothness_1_08 * v5 + coef_smoothness_1_09 * v6) +
  v4 * (coef_smoothness_1_10 * v4 + coef_smoothness_1_11 * v5 + coef_smoothness_1_12 * v6) +
  v5 * (coef_smoothness_1_13 * v5 + coef_smoothness_1_14 * v6) +
  v6 * (coef_smoothness_1_15 * v6)

/-- Smoothness indicator `s3` of WENO9::ApplyImplementation before the
epsilon regularisation (weno9.cpp lines 115-121). -/
def smoothness3 (v3 v4 v5 v6 v7 : ℚ) : ℚ :=
  v3 * (coef_smoothness_2_01 * v3 + coef_smoothness_2_02 * v4 + coef_smoothness_2_03 * v5 + coef_smoothness_2_04 * v6 + coef_smoothness_2_05 * v7) +
  v4 * (coef_smoothness_2_06 * v4 + coef_smoothness_2_07 * v5 + coef_smoothness_2_08 * v6 + coef_smoothness_2_09 * v7) +
  v5 * (coef_smoothness_2_10 * v5 + coef_smoothness_2_11 * v6 + coef_smoothness_2_12 * v7) +
  v6 * (coef_smoothness_2_13 * v6 + coef_smoothness_2_14 * v7) +
  v7 * (coef_smoothness_2_15 * v7)

/-- Smoothness indicator `s4` of WENO9::ApplyImplementation before the
epsilon regularisation (weno9.cpp lines 123-129). -/
def smoothness4 (v4 v5 v6 v7 v8 : ℚ) : ℚ :=
  v4 * (coef_smoothness_3_01 * v4 + coef_smoothness_3_02 * v5 + coef_smoothness_3_03 * v6 + coef_smoothness_3_04 * v7 + coef_smoothness_3_05 * v8) +
  v5 * (coef_smoothness_3_06 * v5 + coef_smoothness_3_07 * v6 + coef_smoothness_3_08 * v7 + coef_smoothness_3_09 * v8) +
  v6 * (coef_smoothness_3_10 * v6 + coef_smoothness_3_11 * v7 + coef_smoothness_3_12 * v8) +
  v7 * (coef_smoothness_3_13 * v7 + coef_smoothness_3_14 * v8) +
  v8 * (coef_smoothness_3_15 * v8)

/-- Smoothness indicator `s5` of WENO9::ApplyImplementation before the
epsilon regularisation (weno9.cpp lines 131-137). -/
def smoothness5 (v5 v6 v7 v8 v9 : ℚ) : ℚ :=
  v5 * (coef_smoothness_4_01 * v5 + coef_smoothness_4_02 * v6 + coef_smoothness_4_03 * v7 + coef_smoothness_4_04 * v8 + coef_smoothness_4_05 * v9) +
  v6 * (coef_smoothness_4_06 * v6 + coef_smoothness_4_07 * v7 + coef_smoothness_4_08 * v8 + coef_smoothness_4_09 * v9) +
  v7 * (coef_smoothness_4_10 * v7 + coef_smoothness_4_11 * v8 + coef_smoothness_4_12 * v9) +
  v8 * (coef_smoothness_4_13 * v8 + coef_smoothness_4_14 * v9) +
  v9 * (coef_smoothness_4_15 * v9)

/-- Regularised smoothness indicator: `s1 += epsilon_weno9_`
(weno9.cpp line 140). -/
def regularized1 (v1 v2 v3 v4 v5 : ℚ) : ℚ :=
  smoothness1 v1 v2 v3 v4 v5 + epsilon_weno9

/-- Regularised smoothness indicator: `s2 += epsilon_weno9_`
(weno9.cpp line 141). -/
def regularized2 (v2 v3 v4 v5 v6 : ℚ) : ℚ :=
  smoothness2 v2 v3 v4 v5 v6 + epsilon_weno9

/-- Regularised smoothness indicator: `s3 += epsilon_weno9_`
(weno9.cpp line 142). -/
def regularized3 (v3 v4 v5 v6 v7 : ℚ) : ℚ :=
  smoothness3 v3 v4 v5 v6 v7 + epsilon_weno9

/-- Regularised smoothness indicator: `s4 += epsilon_weno9_`
(weno9.cpp line 143). -/
def regularized4 (v4 v5 v6 v7 v8 : ℚ) : ℚ :=
  smoothness4 v4 v5 v6 v7 v8 + epsilon_weno9

/-- Regularised smoothness indicator: `s5 += epsilon_weno9_`
(weno9.cpp line 144). -/
def regularized5 (v5 v6 v7 v8 v9 : ℚ) : ℚ :=
  smoothness5 v5 v6 v7 v8 v9 + epsilon_weno9

/-- Unnormalised nonlinear weight `a1 = coef_weights_1_ / (s1*s1)`
(weno9.cpp line 147). -/
def alpha1 (v1 v2 v3 v4 v5 : ℚ) : ℚ :=
  coef_weights_1 / (regularized1 v1 v2 v3 v4 v5 * regularized1 v1 v2 v3 v4 v5)

/-- Unnormalised nonlinear weight `a2 = coef_weights_2_ / (s2*s2)`
(weno9.cpp line 148). -/
def alpha2 (v2 v3 v4 v5 v6 : ℚ) : ℚ :=
  coef_weights_2 / (regularized2 v2 v3 v4 v5 v6 * regularized2 v2 v3 v4 v5 v6)

/-- Unnormalised nonlinear weight `a3 = coef_weights_3_ / (s3*s3)`
(weno9.cpp line 149). -/
def alpha3 (v3 v4 v5 v6 v7 : ℚ) : ℚ :=
  coef_weights_3 / (regularized3 v3 v4 v5 v6 v7 * regularized3 v3 v4 v5 v6 v7)

/-- Unnormalised nonlinear weight `a4 = coef_weights_4_ / (s4*s4)`
(weno9.cpp line 150). -/
def alpha4 (v4 v5 v6 v7 v8 : ℚ) : ℚ :=
  coef_weights_4 / (regularized4 v4 v5 v6 v7 v8 * regularized4 v4 v5 v6 v7 v8)

/-- Unnormalised nonlinear weight `a5 = coef_weights_5_ / (s5*s5)`
(weno9.cpp line 151). -/
def alpha5 (v5 v6 v7 v8 v9 : ℚ) : ℚ :=
  coef_weights_5 / (regularized5 v5 v6 v7 v8 v9 * regularized5 v5 v6 v7 v8 v9)

/-- The sum `a1 + a2 + a3 + a4 + a5` whose reciprocal is `one_a_sum`
(weno9.cpp line 153). -/
def alphaSum (v1 v2 v3 v4 v5 v6 v7 v8 v9 : ℚ) : ℚ :=
  alpha1 v1 v2 v3 v4 v5 + alpha2 v2 v3 v4 v5 v6 + alpha3 v3 v4 v5 v6 v7 + alpha4 v4 v5 v6 v7 v8 + alpha5 v5 v6 v7 v8 v9

/-- Normalised weight `w1 = a1 * one_a_sum` (weno9.cpp line 155). -/
def weight1 (v1 v2 v3 v4 v5 v6 v7 v8 v9 : ℚ) : ℚ :=
  alpha1 v1 v2 v3 v4 v5 * (1 / alphaSum v1 v2 v3 v4 v5 v6 v7 v8 v9)

/-- Normalised weight `w2 = a2 * one_a_sum` (weno9.cpp line 156). -/
def weight2 (v1 v2 v3 v4 v5 v6 v7 v8 v9 : ℚ) : ℚ :=
  alpha2 v2 v3 v4 v5 v6 * (1 / alphaSum v1 v2 v3 v4 v5 v6 v7 v8 v9)

/-- Normalised weight `w3 = a3 * one_a_sum` (weno9.cpp line 157). -/
def weight3 (v1 v2 v3 v4 v5 v6 v7 v8 v9 : ℚ) : ℚ :=
  alpha3 v3 v4 v5 v6 v7 * (1 / alphaSum v1 v2 v3 v4 v5 v6 v7 v8 v9)

/-- Normalised weight `w4 = a4 * one_a_sum` (weno9.cpp line 158). -/
def weight4 (v1 v2 v3 v4 v5 v6 v7 v8 v9 : ℚ) : ℚ :=
  alpha4 v4 v5 v6 v7 v8 * (1 / alphaSum v1 v2 v3 v4 v5 v6 v7 v8 v9)

/-- Normalised weight `w5 = a5 * one_a_sum` (weno9.cpp line 159). -/
def weight5 (v1 v2 v3 v4 v5 v6 v7 v8 v9 : ℚ) : ℚ :=
  alpha5 v5 v6 v7 v8 v9 * (1 / alphaSum v1 v2 v3 v4 v5 v6 v7 v8 v9)

/-- Candidate polynomial reconstruction of sub-stencil 1
(weno9.cpp line 162). -/
def reconstruct1 (v1 v2 v3 v4 v5 : ℚ) : ℚ :=
  coef_stencils_1 * v1 + coef_stencils_2 * v2 + coef_stencils_3 * v3 + coef_stencils_4 * v4 + coef_stencils_5 * v5

/-- Candidate polynomial reconstruction of sub-stencil 2
(weno9.cpp line 163). -/
def reconstruct2 (v2 v3 v4 v5 v6 : ℚ) : ℚ :=
  coef_stencils_6 * v2 + coef_stencils_7 * v3 + coef_stencils_8 * v4 + coef_stencils_9 * v5 + coef_stencils_10 * v6

/-- Candidate polynomial reconstruction of sub-stencil 3
(weno9.cpp line 164). -/
def reconstruct3 (v3 v4 v5 v6 v7 : ℚ) : ℚ :=
  coef_stencils_11 * v3 + coef_stencils_12 * v4 + coef_stencils_13 * v5 + coef_stencils_14 * v6 + coef_stencils_15 * v7

/-- Candidate polynomial reconstruction of sub-stencil 4
(weno9.cpp line 165). -/
def reconstruct4 (v4 v5 v6 v7 v8 : ℚ) : ℚ :=
  coef_stencils_16 * v4 + coef_stencils_17 * v5 + coef_stencils_18 * v6 + coef_stencils_19 * v7 + coef_stencils_20 * v8

/-- Candidate polynomial reconstruction of sub-stencil 5
(weno9.cpp line 166). -/
def reconstruct5 (v5 v6 v7 v8 v9 : ℚ) : ℚ :=
  coef_stencils_21 * v5 + coef_stencils_22 * v6 + coef_stencils_23 * v7 + coef_stencils_24 * v8 + coef_stencils_25 * v9

/-- The weighted average returned by WENO9::ApplyImplementation as a function
of the nine extracted samples `v1..v9` (weno9.cpp lines 98-167). -/
def weno9Core (v1 v2 v3 v4 v5 v6 v7 v8 v9 : ℚ) : ℚ :=
  weight1 v1 v2 v3 v4 v5 v6 v7 v8 v9 * reconstruct1 v1 v2 v3 v4 v5 +
  weight2 v1 v2 v3 v4 v5 v6 v7 v8 v9 * reconstruct2 v2 v3 v4 v5 v6 +
  weight3 v1 v2 v3 v4 v5 v6 v7 v8 v9 * reconstruct3 v3 v4 v5 v6 v7 +
  weight4 v1 v2 v3 v4 v5 v6 v7 v8 v9 * reconstruct4 v4 v5 v6 v7 v8 +
  weight5 v1 v2 v3 v4 v5 v6 v7 v8 v9 * reconstruct5 v5 v6 v7 v8 v9

/-- Modelled from the spec: `stencil_size_` of the missing header weno9.h;
the window holds `2n - 1 = 9` samples for the 9-point scheme. -/
def stencil_size : ℕ := 9

/-- Modelled from the spec: `downstream_stencil_size_` of the missing header
weno9.h; the central sample `v5` sits at array position
`downstream_stencil_size_ + evaluation_properties[0]`, so it equals 4 for the
9-point window. -/
def downstream_stencil_size : ℤ := 4

/-- The sample window `std::array<double, stencil_size_>`. -/
abbrev Window : Type := Fin 9 → ℚ

/-- Reading the window at a computed signed index (`array[..]` in
weno9.cpp lines 88-96); indices outside the array are junk (0 here), and
every theorem that needs in-range reads assumes them. -/
def winGet (w : Window) (i : ℤ) : ℚ :=
  if h : 0 ≤ i ∧ i < 9 then w ⟨i.toNat, by omega⟩ else 0

/-- `WENO9::ApplyImplementation(array, evaluation_properties, cell_size)`
(weno9.cpp lines 76-167): extracts the nine samples
`v_j = array[downstream_stencil_size_ + evaluation_properties[0] + (j-5) *
evaluation_properties[1]]` and returns the weighted average.  `cell_size` is
accepted and unused (line 79). -/
def ApplyImplementation (array : Window) (ep0 ep1 : ℤ) (cell_size : ℚ) : ℚ :=
  weno9Core
    (winGet array (downstream_stencil_size + ep0 - 4 * ep1))
    (winGet array (downstream_stencil_size + ep0 - 3 * ep1))
    (winGet array (downstream_stencil_size + ep0 - 2 * ep1))
    (winGet array (downstream_stencil_size + ep0 - 1 * ep1))
    (winGet array (downstream_stencil_size + ep0))
    (winGet array (downstream_stencil_size + ep0 + 1 * ep1))
    (winGet array (downstream_stencil_size + ep0 + 2 * ep1))
    (winGet array (downstream_stencil_size + ep0 + 3 * ep1))
    (winGet array (downstream_stencil_size + ep0 + 4 * ep1))

/-- Reading a list-backed window at a computed signed index. -/
def listGet (l : List ℚ) (i : ℤ) : ℚ :=
  if 0 ≤ i then l.getD i.toNat 0 else 0

/-- Modelled from the spec: the kernel body over a window container whose
length can vary, so that the length guard of the checked build is
expressible (the C++ `std::array` type itself fixes the length).  This is the
computation the PERFORMANCE build runs, where the guard is elided. -/
def ApplyImplementationUnchecked (l : List ℚ) (ep0 ep1 : ℤ) (cell_size : ℚ) : ℚ :=
  weno9Core
    (listGet l (downstream_stencil_size + ep0 - 4 * ep1))
    (listGet l (downstream_stencil_size + ep0 - 3 * ep1))
    (listGet l (downstream_stencil_size + ep0 - 2 * ep1))
    (listGet l (downstream_stencil_size + ep0 - 1 * ep1))
    (listGet l (downstream_stencil_size + ep0))
    (listGet l (downstream_stencil_size + ep0 + 1 * ep1))
    (listGet l (downstream_stencil_size + ep0 + 2 * ep1))
    (listGet l (downstream_stencil_size + ep0 + 3 * ep1))
    (listGet l (downstream_stencil_size + ep0 + 4 * ep1))

/-- The message of the `std::logic_error` thrown by the checked build on a
short window (weno9.cpp line 83). -/
def stencilSizeErrorMessage : String :=
  "Stencil size in WENO9 is longer than provided Array"

/-- The checked (non-PERFORMANCE) build of WENO9::ApplyImplementation:
`if(array.size() < stencil_size_) throw std::logic_error(...)` (weno9.cpp
lines 82-84), then the kernel body. -/
def ApplyImplementationChecked (l : List ℚ) (ep0 ep1 : ℤ) (cell_size : ℚ) :
    Except String ℚ :=
  if l.length < stencil_size then
    .error stencilSizeErrorMessage
  else
    .ok (ApplyImplementationUnchecked l ep0 ep1 cell_size)

/-- The window with its nine samples in reversed order. -/
def reverseWindow (w : Window) : Window :=
  fun i => w ⟨8 - i.val, by omega⟩


/-- The affine sample window `v_i = a + b * i` (positions 0..8 of the array),
used to state the polynomial exactness law. -/
def affineWindow (a b : ℚ) : Window :=
  fun j => a + b * ((j : ℕ) : ℚ)

/-! ### Helper lemmas for the WENO9 kernel -/

/-- The smoothness indicator `s1` is a nonnegative quadratic form of the
samples: sum-of-squares decomposition obtained from the LDL factorisation of
its coefficient matrix. -/
lemma smoothness1_nonneg (v1 v2 v3 v4 v5 : ℚ) : 0 ≤ smoothness1 v1 v2 v3 v4 v5 := by
  have h : smoothness1 v1 v2 v3 v4 v5 =
      (22658 : ℚ) * (v1 + (-((208501 : ℚ) / 45316)) * v2 + ((364863 : ℚ) / 45316) * v3 + (-((288007 : ℚ) / 45316)) * v4 + ((86329 : ℚ) / 45316) * v5) ^ 2 +
        ((299235615 : ℚ) / 90632) * (v2 + (-((55338513 : ℚ) / 14249315)) * v3 + ((71911201 : ℚ) / 14249315) * v4 + (-((1813059 : ℚ) / 838195)) * v5) ^ 2 +
        ((39105167808 : ℚ) / 14249315) * (v3 + (-((583582777 : ℚ) / 232768856)) * v4 + ((350813921 : ℚ) / 232768856) * v5) ^ 2 +
        ((116566909305 : ℚ) / 29096107) * (v4 + (-1 : ℚ) * v5) ^ 2 := by
    simp only [smoothness1, coef_smoothness_0_01, coef_smoothness_0_02, coef_smoothness_0_03, coef_smoothness_0_04, coef_smoothness_0_05, coef_smoothness_0_06, coef_smoothness_0_07, coef_smoothness_0_08, coef_smoothness_0_09, coef_smoothness_0_10, coef_smoothness_0_11, coef_smoothness_0_12, coef_smoothness_0_13, coef_smoothness_0_14, coef_smoothness_0_15]
    ring
  rw [h]
  positivity

/-- The smoothness indicator `s2` is a nonnegative quadratic form of the
samples: sum-of-squares decomposition obtained from the LDL factorisation of
its coefficient matrix. -/
lemma smoothness2_nonneg (v2 v3 v4 v5 v6 : ℚ) : 0 ≤ smoothness2 v2 v3 v4 v5 v6 := by
  have h : smoothness2 v2 v3 v4 v5 v6 =
      (6908 : ℚ) * (v2 + (-((60871 : ℚ) / 13816)) * v3 + ((99213 : ℚ) / 13816) * v4 + (-((70237 : ℚ) / 13816)) * v5 + ((18079 : ℚ) / 13816) * v6) ^ 2 +
        ((123494175 : ℚ) / 27632) * (v3 + (-((18329233 : ℚ) / 5880675)) * v4 + ((67923 : ℚ) / 22025) * v5 + (-((5686883 : ℚ) / 5880675)) * v6) ^ 2 +
        ((13035055936 : ℚ) / 1960225) * (v4 + (-((379530087 : ℚ) / 232768856)) * v5 + ((146761231 : ℚ) / 232768856) * v6) ^ 2 +
        ((116566909305 : ℚ) / 29096107) * (v5 + (-1 : ℚ) * v6) ^ 2 := by
    simp only [smoothness2, coef_smoothness_1_01, coef_smoothness_1_02, coef_smoothness_1_03, coef_smoothness_1_04, coef_smoothness_1_05, coef_smoothness_1_06, coef_smoothness_1_07, coef_smoothness_1_08, coef_smoothness_1_09, coef_smoothness_1_10, coef_smoothness_1_11, coef_smoothness_1_12, coef_smoothness_1_13, coef_smoothness_1_14, coef_smoothness_1_15]
    ring
  rw [h]
  positivity

/-- The smoothness indicator `s3` is a nonnegative quadratic form of the
samples: sum-of-squares decomposition obtained from the LDL factorisation of
its coefficient matrix. -/
lemma smoothness3_nonneg (v3 v4 v5 v6 v7 : ℚ) : 0 ≤ smoothness3 v3 v4 v5 v6 v7 := by
  have h : smoothness3 v3 v4 v5 v6 v7 =
      (6908 : ℚ) * (v3 + (-((51001 : ℚ) / 13816)) * v4 + ((67923 : ℚ) / 13816) * v5 + (-((38947 : ℚ) / 13816)) * v6 + ((8209 : ℚ) / 13816) * v7) ^ 2 +
        ((299235615 : ℚ) / 27632) * (v4 + (-((1870849 : ℚ) / 838195)) * v5 + ((23242001 : ℚ) / 14249315) * v6 + (-((5686883 : ℚ) / 14249315)) * v7) ^ 2 +
        ((8583070944 : ℚ) / 838195) * (v5 + (-((71725821 : ℚ) / 51089708)) * v6 + ((20636113 : ℚ) / 51089708) * v7) ^ 2 +
        ((233133818610 : ℚ) / 217131259) * (v6 + (-1 : ℚ) * v7) ^ 2 := by
    simp only [smoothness3, coef_smoothness_2_01, coef_smoothness_2_02, coef_smoothness_2_03, coef_smoothness_2_04, coef_smoothness_2_05, coef_smoothness_2_06, coef_smoothness_2_07, coef_smoothness_2_08, coef_smoothness_2_09, coef_smoothness_2_10, coef_smoothness_2_11, coef_smoothness_2_12, coef_smoothness_2_13, coef_smoothness_2_14, coef_smoothness_2_15]
    ring
  rw [h]
  positivity

/-- The smoothness indicator `s4` is a nonnegative quadratic form of the
samples: sum-of-squares decomposition obtained from the LDL factorisation of
its coefficient matrix. -/
lemma smoothness4_nonneg (v4 v5 v6 v7 v8 : ℚ) : 0 ≤ smoothness4 v4 v5 v6 v7 v8 := by
  have h : smoothness4 v4 v5 v6 v7 v8 =
      (22658 : ℚ) * (v4 + (-((140251 : ℚ) / 45316)) * v5 + ((165153 : ℚ) / 45316) * v6 + (-((88297 : ℚ) / 45316)) * v7 + ((18079 : ℚ) / 45316) * v8) ^ 2 +
        ((2328127935 : ℚ) / 90632) * (v5 + (-((217591953 : ℚ) / 110863235)) * v6 + ((19650103 : ℚ) / 15837605) * v7 + (-((30822003 : ℚ) / 110863235)) * v8) ^ 2 +
        ((101210149344 : ℚ) / 15837605) * (v6 + (-((5962732027 : ℚ) / 4217089556)) * v7 + ((1745642471 : ℚ) / 4217089556) * v8) ^ 2 +
        ((233133818610 : ℚ) / 1054272389) * (v7 + (-1 : ℚ) * v8) ^ 2 := by
    simp only [smoothness4, coef_smoothness_3_01, coef_smoothness_3_02, coef_smoothness_3_03, coef_smoothness_3_04, coef_smoothness_3_05, coef_smoothness_3_06, coef_smoothness_3_07, coef_smoothness_3_08, coef_smoothness_3_09, coef_smoothness_3_10, coef_smoothness_3_11, coef_smoothness_3_12, coef_smoothness_3_13, coef_smoothness_3_14, coef_smoothness_3_15]
    ring
  rw [h]
  positivity

/-- The smoothness indicator `s5` is a nonnegative quadratic form of the
samples: sum-of-squares decomposition obtained from the LDL factorisation of
its coefficient matrix. -/
lemma smoothness5_nonneg (v5 v6 v7 v8 v9 : ℚ) : 0 ≤ smoothness5 v5 v6 v7 v8 v9 := by
  have h : smoothness5 v5 v6 v7 v8 v9 =
      (107918 : ℚ) * (v5 + (-((649501 : ℚ) / 215836)) * v6 + ((758823 : ℚ) / 215836) * v7 + (-((411487 : ℚ) / 215836)) * v8 + ((86329 : ℚ) / 215836) * v9) ^ 2 +
        ((18696922335 : ℚ) / 431672) * (v6 + (-((1835635153 : ℚ) / 890329635)) * v7 + ((411792427 : ℚ) / 296776545) * v8 + (-((290071763 : ℚ) / 890329635)) * v9) ^ 2 +
        ((999262585216 : ℚ) / 296776545) * (v7 + (-((26228937057 : ℚ) / 17843974736)) * v8 + ((8384962321 : ℚ) / 17843974736) * v9) ^ 2 +
        ((16652415615 : ℚ) / 318642406) * (v8 + (-1 : ℚ) * v9) ^ 2 := by
    simp only [smoothness5, coef_smoothness_4_01, coef_smoothness_4_02, coef_smoothness_4_03, coef_smoothness_4_04, coef_smoothness_4_05, coef_smoothness_4_06, coef_smoothness_4_07, coef_smoothness_4_08, coef_smoothness_4_09, coef_smoothness_4_10, coef_smoothness_4_11, coef_smoothness_4_12, coef_smoothness_4_13, coef_smoothness_4_14, coef_smoothness_4_15]
    ring
  rw [h]
  positivity

lemma epsilon_weno9_pos : 0 < epsilon_weno9 := by
  norm_num [epsilon_weno9]

lemma regularized1_pos (v1 v2 v3 v4 v5 : ℚ) : 0 < regularized1 v1 v2 v3 v4 v5 :=
  add_pos_of_nonneg_of_pos (smoothness1_nonneg v1 v2 v3 v4 v5) epsilon_weno9_pos

lemma regularized2_pos (v2 v3 v4 v5 v6 : ℚ) : 0 < regularized2 v2 v3 v4 v5 v6 :=
  add_pos_of_nonneg_of_pos (smoothness2_nonneg v2 v3 v4 v5 v6) epsilon_weno9_pos

lemma regularized3_pos (v3 v4 v5 v6 v7 : ℚ) : 0 < regularized3 v3 v4 v5 v6 v7 :=
  add_pos_of_nonneg_of_pos (smoothness3_nonneg v3 v4 v5 v6 v7) epsilon_weno9_pos

lemma regularized4_pos (v4 v5 v6 v7 v8 : ℚ) : 0 < regularized4 v4 v5 v6 v7 v8 :=
  add_pos_of_nonneg_of_pos (smoothness4_nonneg v4 v5 v6 v7 v8) epsilon_weno9_pos

lemma regularized5_pos (v5 v6 v7 v8 v9 : ℚ) : 0 < regularized5 v5 v6 v7 v8 v9 :=
  add_pos_of_nonneg_of_pos (smoothness5_nonneg v5 v6 v7 v8 v9) epsilon_weno9_pos

lemma alpha1_pos (v1 v2 v3 v4 v5 : ℚ) : 0 < alpha1 v1 v2 v3 v4 v5 :=
  div_pos (by norm_num [coef_weights_1])
    (mul_pos (regularized1_pos v1 v2 v3 v4 v5) (regularized1_pos v1 v2 v3 v4 v5))

lemma alpha2_pos (v2 v3 v4 v5 v6 : ℚ) : 0 < alpha2 v2 v3 v4 v5 v6 :=
  div_pos (by norm_num [coef_weights_2])
    (mul_pos (regularized2_pos v2 v3 v4 v5 v6) (regularized2_pos v2 v3 v4 v5 v6))

lemma alpha3_pos (v3 v4 v5 v6 v7 : ℚ) : 0 < alpha3 v3 v4 v5 v6 v7 :=
  div_pos (by norm_num [coef_weights_3])
    (mul_pos (regularized3_pos v3 v4 v5 v6 v7) (regularized3_pos v3 v4 v5 v6 v7))

lemma alpha4_pos (v4 v5 v6 v7 v8 : ℚ) : 0 < alpha4 v4 v5 v6 v7 v8 :=
  div_pos (by norm_num [coef_weights_4])
    (mul_pos (regularized4_pos v4 v5 v6 v7 v8) (regularized4_pos v4 v5 v6 v7 v8))

lemma alpha5_pos (v5 v6 v7 v8 v9 : ℚ) : 0 < alpha5 v5 v6 v7 v8 v9 :=
  div_pos (by norm_num [coef_weights_5])
    (mul_pos (regularized5_pos v5 v6 v7 v8 v9) (regularized5_pos v5 v6 v7 v8 v9))

lemma alphaSum_pos (v1 v2 v3 v4 v5 v6 v7 v8 v9 : ℚ) :
    0 < alphaSum v1 v2 v3 v4 v5 v6 v7 v8 v9 := by
  have h1 := alpha1_pos v1 v2 v3 v4 v5
  have h2 := alpha2_pos v2 v3 v4 v5 v6
  have h3 := alpha3_pos v3 v4 v5 v6 v7
  have h4 := alpha4_pos v4 v5 v6 v7 v8
  have h5 := alpha5_pos v5 v6 v7 v8 v9
  unfold alphaSum
  linarith

lemma weight_sum_eq_one (v1 v2 v3 v4 v5 v6 v7 v8 v9 : ℚ) :
    weight1 v1 v2 v3 v4 v5 v6 v7 v8 v9 + weight2 v1 v2 v3 v4 v5 v6 v7 v8 v9 +
      weight3 v1 v2 v3 v4 v5 v6 v7 v8 v9 + weight4 v1 v2 v3 v4 v5 v6 v7 v8 v9 +
      weight5 v1 v2 v3 v4 v5 v6 v7 v8 v9 = 1 := by
  have hs : alphaSum v1 v2 v3 v4 v5 v6 v7 v8 v9 ≠ 0 :=
    ne_of_gt (alphaSum_pos v1 v2 v3 v4 v5 v6 v7 v8 v9)
  have h : weight1 v1 v2 v3 v4 v5 v6 v7 v8 v9 + weight2 v1 v2 v3 v4 v5 v6 v7 v8 v9 +
      weight3 v1 v2 v3 v4 v5 v6 v7 v8 v9 + weight4 v1 v2 v3 v4 v5 v6 v7 v8 v9 +
      weight5 v1 v2 v3 v4 v5 v6 v7 v8 v9 =
      alphaSum v1 v2 v3 v4 v5 v6 v7 v8 v9 * (1 / alphaSum v1 v2 v3 v4 v5 v6 v7 v8 v9) := by
    simp only [weight1, weight2, weight3, weight4, weight5, alphaSum]
    ring
  rw [h, mul_one_div, div_self hs]


lemma reconstruct1_affine (a b : ℚ) :
    reconstruct1 (a + b * 1) (a + b * 2) (a + b * 3) (a + b * 4) (a + b * 5) =
      a + b * (11 / 2) := by
  simp only [reconstruct1, coef_stencils_1, coef_stencils_2, coef_stencils_3,
    coef_stencils_4, coef_stencils_5]
  ring

lemma reconstruct2_affine (a b : ℚ) :
    reconstruct2 (a + b * 2) (a + b * 3) (a + b * 4) (a + b * 5) (a + b * 6) =
      a + b * (11 / 2) := by
  simp only [reconstruct2, coef_stencils_6, coef_stencils_7, coef_stencils_8,
    coef_stencils_9, coef_stencils_10]
  ring

lemma reconstruct3_affine (a b : ℚ) :
    reconstruct3 (a + b * 3) (a + b * 4) (a + b * 5) (a + b * 6) (a + b * 7) =
      a + b * (11 / 2) := by
  simp only [reconstruct3, coef_stencils_11, coef_stencils_12, coef_stencils_13,
    coef_stencils_14, coef_stencils_15]
  ring

lemma reconstruct4_affine (a b : ℚ) :
    reconstruct4 (a + b * 4) (a + b * 5) (a + b * 6) (a + b * 7) (a + b * 8) =
      a + b * (11 / 2) := by
  simp only [reconstruct4, coef_stencils_16, coef_stencils_17, coef_stencils_18,
    coef_stencils_19, coef_stencils_20]
  ring

lemma reconstruct5_affine (a b : ℚ) :
    reconstruct5 (a + b * 5) (a + b * 6) (a + b * 7) (a + b * 8) (a + b * 9) =
      a + b * (11 / 2) := by
  simp only [reconstruct5, coef_stencils_21, coef_stencils_22, coef_stencils_23,
    coef_stencils_24, coef_stencils_25]
  ring

/-- On nine samples in affine progression the kernel output is the affine
value at the reconstructed face (window position 11/2 relative to sample 1):
each candidate reconstruction is exact and the weights sum to one. -/
lemma weno9Core_affine (a b x1 x2 x3 x4 x5 x6 x7 x8 x9 : ℚ)
    (h1 : x1 = a + b * 1) (h2 : x2 = a + b * 2) (h3 : x3 = a + b * 3)
    (h4 : x4 = a + b * 4) (h5 : x5 = a + b * 5) (h6 : x6 = a + b * 6)
    (h7 : x7 = a + b * 7) (h8 : x8 = a + b * 8) (h9 : x9 = a + b * 9) :
    weno9Core x1 x2 x3 x4 x5 x6 x7 x8 x9 = a + b * (11 / 2) := by
  subst h1 h2 h3 h4 h5 h6 h7 h8 h9
  have hw := weight_sum_eq_one (a + b * 1) (a + b * 2) (a + b * 3) (a + b * 4)
    (a + b * 5) (a + b * 6) (a + b * 7) (a + b * 8) (a + b * 9)
  simp only [weno9Core]
  rw [reconstruct1_affine a b, reconstruct2_affine a b, reconstruct3_affine a b,
    reconstruct4_affine a b, reconstruct5_affine a b]
  linear_combination (a + b * (11 / 2)) * hw

lemma winGet_affine (a b : ℚ) (i : ℤ) (h0 : 0 ≤ i) (h1 : i < 9) :
    winGet (affineWindow a b) i = a + b * (i : ℚ) := by
  unfold winGet affineWindow
  rw [dif_pos (And.intro h0 h1)]
  have h2 : ((i.toNat : ℕ) : ℚ) = (i : ℚ) := by
    exact_mod_cast Int.toNat_of_nonneg h0
  simp only [h2]

lemma winGet_reverse (w : Window) (i : ℤ) :
    winGet (reverseWindow w) i = winGet w (8 - i) := by
  unfold winGet reverseWindow
  by_cases h : 0 ≤ i ∧ i < 9
  · rw [dif_pos h, dif_pos (by omega : 0 ≤ 8 - i ∧ 8 - i < 9)]
    congr 1
    apply Fin.ext
    simp only []
    omega
  · rw [dif_neg h, dif_neg (by omega)]


/-! ### Claim theorems -/

/-- C1: constructing an InterfaceBlock from a level-set field F sets
RightHandSide.Levelset and Reinitialized.Levelset cell-for-cell equal to F,
and sets both Base buffers, the VolumeFraction buffers of RightHandSide and
Reinitialized, every Initial buffer, every InterfaceState buffer and — when
the parameter model is enabled — every InterfaceParameter buffer to 0 in
every cell. -/
theorem InterfaceBlockFromField_init (active : Bool) (junk : InterfaceBlock)
    (F : FieldBuffer) :
    (∀ c, GetRightHandSideBuffer (InterfaceBlockFromField active junk F) .Levelset c = F c) ∧
    (∀ c, GetReinitializedBuffer (InterfaceBlockFromField active junk F) .Levelset c = F c) ∧
    (∀ d c, GetBaseBuffer (InterfaceBlockFromField active junk F) d c = 0) ∧
    (∀ c, GetRightHandSideBuffer (InterfaceBlockFromField active junk F) .VolumeFraction c = 0) ∧
    (∀ c, GetReinitializedBuffer (InterfaceBlockFromField active junk F) .VolumeFraction c = 0) ∧
    (∀ d c, GetInitialBuffer (InterfaceBlockFromField active junk F) d c = 0) ∧
    (∀ s c, GetInterfaceStateBuffer (InterfaceBlockFromField active junk F) s c = 0) ∧
    (active = true →
      ∀ p c, GetInterfaceParameterBuffer (InterfaceBlockFromField active junk F) p c = 0) := by
  refine ⟨fun c => rfl, fun c => rfl, fun d c => rfl, fun c => rfl, fun c => rfl,
    fun d c => rfl, fun s c => rfl, fun ha p c => ?_⟩
  subst ha
  rfl

/-- Witness for C1 at a concrete configuration, junk block, field and cell. -/
theorem InterfaceBlockFromField_init_witness :
    GetInterfaceParameterBuffer (InterfaceBlockFromField true sampleBlock sampleField)
        .SurfaceTensionCoefficient (0, 0, 0) = 0 ∧
    GetRightHandSideBuffer (InterfaceBlockFromField true sampleBlock sampleField)
        .Levelset (0, 0, 0) = sampleField (0, 0, 0) :=
  ⟨(InterfaceBlockFromField_init true sampleBlock sampleField).2.2.2.2.2.2.2 rfl
      .SurfaceTensionCoefficient (0, 0, 0),
    (InterfaceBlockFromField_init true sampleBlock sampleField).1 (0, 0, 0)⟩

/-- C2: the uniform-value constructor sets Base.Levelset to 0 everywhere,
Base.VolumeFraction to 1 everywhere when v > 0 and to 0 everywhere otherwise
(v = 0 included), RightHandSide.Levelset and Reinitialized.Levelset to v
everywhere, and the remaining buffers (VolumeFraction of those two roles,
Initial, InterfaceState and — if enabled — InterfaceParameter) to 0. -/
theorem InterfaceBlockFromValue_init (active : Bool) (junk : InterfaceBlock) (v : ℚ) :
    (∀ c, GetBaseBuffer (InterfaceBlockFromValue active junk v) .Levelset c = 0) ∧
    (0 < v → ∀ c, GetBaseBuffer (InterfaceBlockFromValue active junk v) .VolumeFraction c = 1) ∧
    (¬ 0 < v → ∀ c, GetBaseBuffer (InterfaceBlockFromValue active junk v) .VolumeFraction c = 0) ∧
    (∀ c, GetRightHandSideBuffer (InterfaceBlockFromValue active junk v) .Levelset c = v) ∧
    (∀ c, GetReinitializedBuffer (InterfaceBlockFromValue active junk v) .Levelset c = v) ∧
    (∀ c, GetRightHandSideBuffer (InterfaceBlockFromValue active junk v) .VolumeFraction c = 0) ∧
    (∀ c, GetReinitializedBuffer (InterfaceBlockFromValue active junk v) .VolumeFraction c = 0) ∧
    (∀ d c, GetInitialBuffer (InterfaceBlockFromValue active junk v) d c = 0) ∧
    (∀ s c, GetInterfaceStateBuffer (InterfaceBlockFromValue active junk v) s c = 0) ∧
    (active = true →
      ∀ p c, GetInterfaceParameterBuffer (InterfaceBlockFromValue active junk v) p c = 0) := by
  refine ⟨fun c => rfl, fun hv c => ?_, fun hv c => ?_, fun c => rfl, fun c => rfl,
    fun c => rfl, fun c => rfl, fun d c => rfl, fun s c => rfl, fun ha p c => ?_⟩
  · show (if 0 < v then (1 : ℚ) else 0) = 1
    exact if_pos hv
  · show (if 0 < v then (1 : ℚ) else 0) = 0
    exact if_neg hv
  · subst ha
    rfl

/-- Witness for C2 at v = 5/2 (positive phase), v = -1 (other phase) and a
concrete cell; the spec's own test values. -/
theorem InterfaceBlockFromValue_init_witness :
    (0 < (5 / 2 : ℚ) ∧
      GetBaseBuffer (InterfaceBlockFromValue true sampleBlock (5 / 2))
        .VolumeFraction (0, 0, 0) = 1) ∧
    (¬ 0 < (-1 : ℚ) ∧
      GetBaseBuffer (InterfaceBlockFromValue true sampleBlock (-1))
        .VolumeFraction (0, 0, 0) = 0) ∧
    GetInterfaceParameterBuffer (InterfaceBlockFromValue true sampleBlock (5 / 2))
        .SurfaceTensionCoefficient (0, 0, 0) = 0 :=
  ⟨⟨by norm_num,
      (InterfaceBlockFromValue_init true sampleBlock (5 / 2)).2.1 (by norm_num) (0, 0, 0)⟩,
    ⟨by norm_num,
      (InterfaceBlockFromValue_init true sampleBlock (-1)).2.2.1 (by norm_num) (0, 0, 0)⟩,
    (InterfaceBlockFromValue_init true sampleBlock (5 / 2)).2.2.2.2.2.2.2.2.2 rfl
      .SurfaceTensionCoefficient (0, 0, 0)⟩

/-- C3 counterexample: in the checked build, requesting the
surface-tension-coefficient buffer — the request that names no existing
buffer when the parameter model is disabled — does NOT raise an error: the
explicit case of the switch returns the parameter storage in every
configuration, so the claimed checked-build error is never raised for it. -/
theorem GetBufferChecked_param_request_ok :
    GetBufferChecked sampleBlock .InterfaceParameterSurfaceTensionCoefficient =
      Except.ok (GetInterfaceParameterBuffer sampleBlock .SurfaceTensionCoefficient) :=
  rfl

/-- C3 amended: for every declared InterfaceBlockBufferType value, GetBuffer
raises no error in either build; the checked build returns exactly the buffer
the performance build returns — in particular the parameter request yields
the surface-tension-coefficient storage in both builds, whether or not the
parameter model is enabled.  The checked build's error branch is reachable
only for values outside the declared enumeration. -/
theorem GetBuffer_never_errors (b : InterfaceBlock) (t : InterfaceBlockBufferType) :
    GetBufferChecked b t = Except.ok (GetBufferPerformance b t) := by
  cases t <;> rfl

/-- C10: the flattened accessors agree with the role/kind-specific accessors
on which storage they denote, for every block state: GetBuffer on each
declared identifier equals the corresponding direct accessor, and
GetFieldBuffer at each field type and enumeration ordinal equals the same
direct accessors. -/
theorem accessors_agree (b : InterfaceBlock) :
    (GetBufferPerformance b .LevelsetBase = GetBaseBuffer b .Levelset) ∧
    (GetBufferPerformance b .VolumeFractionBase = GetBaseBuffer b .VolumeFraction) ∧
    (GetBufferPerformance b .LevelsetRightHandSide = GetRightHandSideBuffer b .Levelset) ∧
    (GetBufferPerformance b .VolumeFractionRightHandSide =
      GetRightHandSideBuffer b .VolumeFraction) ∧
    (GetBufferPerformance b .LevelsetReinitialized = GetReinitializedBuffer b .Levelset) ∧
    (GetBufferPerformance b .VolumeFractionReinitialized =
      GetReinitializedBuffer b .VolumeFraction) ∧
    (GetBufferPerformance b .InterfaceStateVelocity = GetInterfaceStateBuffer b .Velocity) ∧
    (GetBufferPerformance b .InterfaceStatePressurePositive =
      GetInterfaceStateBuffer b .PressurePositive) ∧
    (GetBufferPerformance b .InterfaceStatePressureNegative =
      GetInterfaceStateBuffer b .PressureNegative) ∧
    (GetBufferPerformance b .InterfaceParameterSurfaceTensionCoefficient =
      GetInterfaceParameterBuffer b .SurfaceTensionCoefficient) ∧
    (∀ t, GetBufferChecked b t = Except.ok (GetBufferPerformance b t)) ∧
    (∀ d, GetFieldBuffer b .Description (descriptionToIndex d) .Base = GetBaseBuffer b d) ∧
    (∀ d, GetFieldBuffer b .Description (descriptionToIndex d) .RightHandSide =
      GetRightHandSideBuffer b d) ∧
    (∀ d, GetFieldBuffer b .Description (descriptionToIndex d) .Reinitialized =
      GetReinitializedBuffer b d) ∧
    (∀ d, GetFieldBuffer b .Description (descriptionToIndex d) .Initial =
      GetInitialBuffer b d) ∧
    (∀ s bt, GetFieldBuffer b .States (stateToIndex s) bt = GetInterfaceStateBuffer b s) ∧
    (∀ p bt, GetFieldBuffer b .Parameters (parameterToIndex p) bt =
      GetInterfaceParameterBuffer b p) := by
  refine ⟨rfl, rfl, rfl, rfl, rfl, rfl, rfl, rfl, rfl, rfl,
    fun t => by cases t <;> rfl,
    fun d => by cases d <;> rfl,
    fun d => by cases d <;> rfl,
    fun d => by cases d <;> rfl,
    fun d => by cases d <;> rfl,
    fun s bt => by cases s <;> rfl,
    fun p bt => by cases p <;> rfl⟩

/-- C4: for every input window the five regularised smoothness indicators and
the weight normaliser are strictly positive — so the normalised WENO9 weights
are well defined — and the five normalised weights sum exactly to 1 (flat
windows included, where every smoothness indicator is 0 before the epsilon
regularisation). -/
theorem weno9_weights_defined_and_sum_one (v1 v2 v3 v4 v5 v6 v7 v8 v9 : ℚ) :
    0 < regularized1 v1 v2 v3 v4 v5 ∧ 0 < regularized2 v2 v3 v4 v5 v6 ∧
    0 < regularized3 v3 v4 v5 v6 v7 ∧ 0 < regularized4 v4 v5 v6 v7 v8 ∧
    0 < regularized5 v5 v6 v7 v8 v9 ∧
    0 < alphaSum v1 v2 v3 v4 v5 v6 v7 v8 v9 ∧
    weight1 v1 v2 v3 v4 v5 v6 v7 v8 v9 + weight2 v1 v2 v3 v4 v5 v6 v7 v8 v9 +
      weight3 v1 v2 v3 v4 v5 v6 v7 v8 v9 + weight4 v1 v2 v3 v4 v5 v6 v7 v8 v9 +
      weight5 v1 v2 v3 v4 v5 v6 v7 v8 v9 = 1 :=
  ⟨regularized1_pos v1 v2 v3 v4 v5, regularized2_pos v2 v3 v4 v5 v6,
    regularized3_pos v3 v4 v5 v6 v7, regularized4_pos v4 v5 v6 v7 v8,
    regularized5_pos v5 v6 v7 v8 v9, alphaSum_pos v1 v2 v3 v4 v5 v6 v7 v8 v9,
    weight_sum_eq_one v1 v2 v3 v4 v5 v6 v7 v8 v9⟩

/-- C7: every raw smoothness indicator is a nonnegative quadratic form of the
samples and the regularisation constant is strictly positive, so every
regularised indicator is strictly positive and every divisor in the weight
computation — the squares of the regularised indicators and the sum of the
unnormalised weights — is nonzero: the kernel is total. -/
theorem weno9_no_division_by_zero (v1 v2 v3 v4 v5 v6 v7 v8 v9 : ℚ) :
    (0 ≤ smoothness1 v1 v2 v3 v4 v5 ∧ 0 ≤ smoothness2 v2 v3 v4 v5 v6 ∧
      0 ≤ smoothness3 v3 v4 v5 v6 v7 ∧ 0 ≤ smoothness4 v4 v5 v6 v7 v8 ∧
      0 ≤ smoothness5 v5 v6 v7 v8 v9) ∧
    0 < epsilon_weno9 ∧
    (regularized1 v1 v2 v3 v4 v5 * regularized1 v1 v2 v3 v4 v5 ≠ 0 ∧
      regularized2 v2 v3 v4 v5 v6 * regularized2 v2 v3 v4 v5 v6 ≠ 0 ∧
      regularized3 v3 v4 v5 v6 v7 * regularized3 v3 v4 v5 v6 v7 ≠ 0 ∧
      regularized4 v4 v5 v6 v7 v8 * regularized4 v4 v5 v6 v7 v8 ≠ 0 ∧
      regularized5 v5 v6 v7 v8 v9 * regularized5 v5 v6 v7 v8 v9 ≠ 0) ∧
    alphaSum v1 v2 v3 v4 v5 v6 v7 v8 v9 ≠ 0 :=
  ⟨⟨smoothness1_nonneg v1 v2 v3 v4 v5, smoothness2_nonneg v2 v3 v4 v5 v6,
      smoothness3_nonneg v3 v4 v5 v6 v7, smoothness4_nonneg v4 v5 v6 v7 v8,
      smoothness5_nonneg v5 v6 v7 v8 v9⟩,
    epsilon_weno9_pos,
    ⟨ne_of_gt (mul_pos (regularized1_pos v1 v2 v3 v4 v5) (regularized1_pos v1 v2 v3 v4 v5)),
      ne_of_gt (mul_pos (regularized2_pos v2 v3 v4 v5 v6) (regularized2_pos v2 v3 v4 v5 v6)),
      ne_of_gt (mul_pos (regularized3_pos v3 v4 v5 v6 v7) (regularized3_pos v3 v4 v5 v6 v7)),
      ne_of_gt (mul_pos (regularized4_pos v4 v5 v6 v7 v8) (regularized4_pos v4 v5 v6 v7 v8)),
      ne_of_gt (mul_pos (regularized5_pos v5 v6 v7 v8 v9) (regularized5_pos v5 v6 v7 v8 v9))⟩,
    ne_of_gt (alphaSum_pos v1 v2 v3 v4 v5 v6 v7 v8 v9)⟩

/-- C5: on an affine sample window `v_i = a + b·i` the kernel returns exactly
the affine value at the reconstructed face, whose window position is
`downstream_stencil_size_ + offset + stride/2`, for every in-range
offset/stride pair and regardless of the smoothness-indicator values. -/
theorem ApplyImplementation_affine_exact (a b : ℚ) (ep0 ep1 : ℤ) (cell_size : ℚ)
    (h : ∀ k : ℤ, -4 ≤ k → k ≤ 4 →
      0 ≤ downstream_stencil_size + ep0 + k * ep1 ∧
        downstream_stencil_size + ep0 + k * ep1 < 9) :
    ApplyImplementation (affineWindow a b) ep0 ep1 cell_size =
      a + b * (((downstream_stencil_size + ep0 : ℤ) : ℚ) + (ep1 : ℚ) / 2) := by
  have g : ∀ k : ℤ, -4 ≤ k → k ≤ 4 →
      0 ≤ 4 + ep0 + k * ep1 ∧ 4 + ep0 + k * ep1 < 9 := by
    intro k h1 h2
    simpa [downstream_stencil_size] using h k h1 h2
  obtain ⟨p1, q1⟩ := g (-4) (by norm_num) (by norm_num)
  obtain ⟨p2, q2⟩ := g (-3) (by norm_num) (by norm_num)
  obtain ⟨p3, q3⟩ := g (-2) (by norm_num) (by norm_num)
  obtain ⟨p4, q4⟩ := g (-1) (by norm_num) (by norm_num)
  obtain ⟨p5, q5⟩ := g 0 (by norm_num) (by norm_num)
  obtain ⟨p6, q6⟩ := g 1 (by norm_num) (by norm_num)
  obtain ⟨p7, q7⟩ := g 2 (by norm_num) (by norm_num)
  obtain ⟨p8, q8⟩ := g 3 (by norm_num) (by norm_num)
  obtain ⟨p9, q9⟩ := g 4 (by norm_num) (by norm_num)
  simp only [ApplyImplementation, downstream_stencil_size]
  rw [winGet_affine a b (4 + ep0 - 4 * ep1) (by omega) (by omega),
    winGet_affine a b (4 + ep0 - 3 * ep1) (by omega) (by omega),
    winGet_affine a b (4 + ep0 - 2 * ep1) (by omega) (by omega),
    winGet_affine a b (4 + ep0 - 1 * ep1) (by omega) (by omega),
    winGet_affine a b (4 + ep0) (by omega) (by omega),
    winGet_affine a b (4 + ep0 + 1 * ep1) (by omega) (by omega),
    winGet_affine a b (4 + ep0 + 2 * ep1) (by omega) (by omega),
    winGet_affine a b (4 + ep0 + 3 * ep1) (by omega) (by omega),
    winGet_affine a b (4 + ep0 + 4 * ep1) (by omega) (by omega)]
  refine Eq.trans (weno9Core_affine (a + b * ((4 : ℚ) + (ep0 : ℚ) - 5 * (ep1 : ℚ)))
    (b * (ep1 : ℚ)) _ _ _ _ _ _ _ _ _ ?_ ?_ ?_ ?_ ?_ ?_ ?_ ?_ ?_) ?_
  · push_cast
    ring
  · push_cast
    ring
  · push_cast
    ring
  · push_cast
    ring
  · push_cast
    ring
  · push_cast
    ring
  · push_cast
    ring
  · push_cast
    ring
  · push_cast
    ring
  · push_cast
    ring

/-- Witness for C5 at a = 2, b = 3, offset 0, stride 1: the face lies at
window position 4 + 1/2 and the kernel returns exactly 2 + 3·(4 + 1/2). -/
theorem ApplyImplementation_affine_exact_witness :
    ApplyImplementation (affineWindow 2 3) 0 1 (7 / 10) =
      2 + 3 * (((downstream_stencil_size + 0 : ℤ) : ℚ) + ((1 : ℤ) : ℚ) / 2) :=
  ApplyImplementation_affine_exact 2 3 0 1 (7 / 10)
    (fun k h1 h2 => by
      constructor <;> simp only [downstream_stencil_size] <;> omega)

/-- C6: in the checked build a window shorter than `stencil_size_` = 9 makes
the kernel raise the declared precondition-violation error instead of
computing; on a window of sufficient length it returns exactly the value of
the unchecked (performance-build) computation, whose guard is elided. -/
theorem ApplyImplementationChecked_short_window (l : List ℚ) (ep0 ep1 : ℤ)
    (cell_size : ℚ) :
    (l.length < stencil_size →
      ApplyImplementationChecked l ep0 ep1 cell_size =
        Except.error stencilSizeErrorMessage) ∧
    (stencil_size ≤ l.length →
      ApplyImplementationChecked l ep0 ep1 cell_size =
        Except.ok (ApplyImplementationUnchecked l ep0 ep1 cell_size)) := by
  constructor
  · intro hshort
    simp [ApplyImplementationChecked, hshort]
  · intro hlong
    simp [ApplyImplementationChecked, Nat.not_lt.mpr hlong]

/-- Witness for C6: a three-sample window errors; a nine-sample window is
accepted and computed. -/
theorem ApplyImplementationChecked_short_window_witness :
    ([1, 2, 3] : List ℚ).length < stencil_size ∧
    ApplyImplementationChecked [1, 2, 3] 0 1 (1 / 2) =
      Except.error stencilSizeErrorMessage ∧
    stencil_size ≤ (List.replicate 9 (0 : ℚ)).length ∧
    ApplyImplementationChecked (List.replicate 9 (0 : ℚ)) 0 1 (1 / 2) =
      Except.ok (ApplyImplementationUnchecked (List.replicate 9 (0 : ℚ)) 0 1 (1 / 2)) :=
  ⟨by norm_num [stencil_size],
    (ApplyImplementationChecked_short_window [1, 2, 3] 0 1 (1 / 2)).1
      (by norm_num [stencil_size]),
    by norm_num [stencil_size],
    (ApplyImplementationChecked_short_window (List.replicate 9 (0 : ℚ)) 0 1 (1 / 2)).2
      (by norm_num [stencil_size])⟩

/-- C8: applying the kernel to the reversed window with negated offset and
stride returns exactly the face value of the original application — the
mirrored face of the reversed window is the original face, and the nine
extracted samples coincide. -/
theorem ApplyImplementation_mirror (array : Window) (ep0 ep1 : ℤ) (cell_size : ℚ) :
    ApplyImplementation (reverseWindow array) (-ep0) (-ep1) cell_size =
      ApplyImplementation array ep0 ep1 cell_size := by
  simp only [ApplyImplementation, downstream_stencil_size, winGet_reverse]
  rw [show (8 - (4 + -ep0 - 4 * -ep1) : ℤ) = 4 + ep0 - 4 * ep1 from by ring,
    show (8 - (4 + -ep0 - 3 * -ep1) : ℤ) = 4 + ep0 - 3 * ep1 from by ring,
    show (8 - (4 + -ep0 - 2 * -ep1) : ℤ) = 4 + ep0 - 2 * ep1 from by ring,
    show (8 - (4 + -ep0 - 1 * -ep1) : ℤ) = 4 + ep0 - 1 * ep1 from by ring,
    show (8 - (4 + -ep0) : ℤ) = 4 + ep0 from by ring,
    show (8 - (4 + -ep0 + 1 * -ep1) : ℤ) = 4 + ep0 + 1 * ep1 from by ring,
    show (8 - (4 + -ep0 + 2 * -ep1) : ℤ) = 4 + ep0 + 2 * ep1 from by ring,
    show (8 - (4 + -ep0 + 3 * -ep1) : ℤ) = 4 + ep0 + 3 * ep1 from by ring,
    show (8 - (4 + -ep0 + 4 * -ep1) : ℤ) = 4 + ep0 + 4 * ep1 from by ring]

/-- C9: the kernel is a pure function of the sample window and the
offset/stride pair: two invocations with cell-for-cell equal windows and
equal evaluation properties return the identical face value even when their
grid-spacing arguments differ, the spacing being accepted but unused. -/
theorem ApplyImplementation_deterministic (array array2 : Window) (ep0 ep1 : ℤ)
    (cs1 cs2 : ℚ) (hw : ∀ i, array i = array2 i) :
    ApplyImplementation array ep0 ep1 cs1 = ApplyImplementation array2 ep0 ep1 cs2 := by
  have h : array = array2 := funext hw
  subst h
  rfl

/-- Witness for C9: the same affine window under two different grid spacings. -/
theorem ApplyImplementation_deterministic_witness :
    ApplyImplementation (affineWindow 1 2) 0 1 (3 / 7) =
      ApplyImplementation (affineWindow 1 2) 0 1 (22 / 7) :=
  ApplyImplementation_deterministic (affineWindow 1 2) (affineWindow 1 2) 0 1
    (3 / 7) (22 / 7) (fun i => rfl)

end Alpaca
